import Mathlib

/-!
Verification development for the auto-upgrade coordinator of
`src/cm-upgrade.ts` (CMake Tools): the persisted upgrade-preference gate, the
version-comparison error handling, the streaming downloader's progress policy,
and the Linux installer's exit-code branching.

Modelling conventions: JavaScript numbers are IEEE doubles, but every number
appearing here (epoch milliseconds, byte counts, exit codes) is integral and
well inside the exactly-representable range, so numbers are modelled as exact
`Int`, with NaN modelled explicitly as `none` in `Option Int`; the downloader's
percentage arithmetic is modelled as exact `Rat`.
-/

/-- JSON-like value as persisted in the `ext.globalState` slot read by
`upgradePreference` (source lines 27-29).  The slot holds arbitrary JSON;
arrays are not modelled. -/
inductive JSVal where
  | null
  | bool (b : Bool)
  | num (n : Int)
  | str (s : String)
  | obj (fields : List (String × JSVal))

/-- JavaScript truthiness, as tested by `else if (pref)` (source line 144). -/
def truthy : JSVal → Bool
  | .null => false
  | .bool b => b
  | .num n => n != 0
  | .str s => s != ""
  | .obj _ => true

/-- JavaScript property access `v.lastNag`: an own property of an object, and
`undefined` (`none`) on every other value. -/
def jsGetField : JSVal → String → Option JSVal
  | .obj fs, k => (fs.find? (fun p => p.1 == k)).map (fun p => p.2)
  | _, _ => none

/-- Numeric value of a digit list, most significant first. -/
def natOfDigits (cs : List Char) : Nat :=
  cs.foldl (fun a c => a * 10 + (c.toNat - 48)) 0

/-- ECMAScript ToNumber on a string, restricted to an optional sign followed by
decimal digits, with the empty string converting to 0 (whitespace trimming,
decimals, exponents and hex are not modelled); `none` is NaN. -/
def strToNumberJS (s : String) : Option Int :=
  if s = "" then some 0
  else
    match s.data with
    | '-' :: rest =>
      if rest ≠ [] ∧ rest.all Char.isDigit then some (-(natOfDigits rest : Int)) else none
    | '+' :: rest =>
      if rest ≠ [] ∧ rest.all Char.isDigit then some ((natOfDigits rest : Int)) else none
    | cs =>
      if cs.all Char.isDigit then some ((natOfDigits cs : Int)) else none

/-- ECMAScript ToNumber of an optionally-undefined value (`none` is
`undefined`); result `none` is NaN.  A plain object converts through the
primitive `"[object Object]"` and hence to NaN. -/
def jsToNumber : Option JSVal → Option Int
  | none => none
  | some .null => some 0
  | some (.bool b) => some (if b then 1 else 0)
  | some (.num n) => some n
  | some (.str s) => strToNumberJS s
  | some (.obj _) => none

/-- NaN-propagating subtraction on JavaScript numbers. -/
def jsSub : Option Int → Option Int → Option Int
  | some a, some b => some (a - b)
  | _, _ => none

/-- JavaScript `<` against a number; every comparison involving NaN is false. -/
def jsLtNum : Option Int → Int → Bool
  | some a, c => a < c
  | none, _ => false

/-- JavaScript `parseInt` in base 10: an optional sign, then the longest
leading run of decimal digits; NaN (`none`) when that run is empty (whitespace
trimming and hex prefixes are not modelled). -/
def parseIntJS (s : String) : Option Int :=
  match s.data with
  | '-' :: rest =>
    let ds := rest.takeWhile Char.isDigit
    if ds.isEmpty then none else some (-(natOfDigits ds : Int))
  | '+' :: rest =>
    let ds := rest.takeWhile Char.isDigit
    if ds.isEmpty then none else some ((natOfDigits ds : Int))
  | cs =>
    let ds := cs.takeWhile Char.isDigit
    if ds.isEmpty then none else some ((natOfDigits ds : Int))

/-! ## Artifact downloader (`downloadFile`, source lines 35-88) -/

/-- One progress report delivered to `pr.report` (source lines 69-73):
`increment` is the `diffPercent` passed as `increment`, `totalPercent` the
value formatted into the message. -/
structure DlReport where
  increment : Rat
  totalPercent : Rat
deriving DecidableEq, Repr

/-- Running byte counters of the data handler (`prevDownloaded`,
`totalDownloaded`, source lines 61-62). -/
structure DlState where
  prevDownloaded : Int
  totalDownloaded : Int
deriving DecidableEq, Repr

/-- The `res.on('data')` handler (source lines 63-76): accumulate
`totalDownloaded`; when the declared total is nonzero, report when
`diffPercent > 1` and advance `prevDownloaded`.  `totalSize = none` models a
NaN total (unparseable Content-Length): the source's `totalSize !== 0` test
passes, but `diffPercent` is then NaN and `NaN > 1` is false, so no report is
emitted — the same observable behaviour as the zero branch. -/
def dlOnData (totalSize : Option Int) (st : DlState) (chunkLen : Int) :
    DlState × Option DlReport :=
  let td := st.totalDownloaded + chunkLen
  match totalSize with
  | none => (⟨st.prevDownloaded, td⟩, none)
  | some t =>
    if t = 0 then (⟨st.prevDownloaded, td⟩, none)
    else
      let diffPercent : Rat := 100 * ((td : Rat) - (st.prevDownloaded : Rat)) / (t : Rat)
      let totalPercent : Rat := 100 * (td : Rat) / (t : Rat)
      if 1 < diffPercent then (⟨td, td⟩, some ⟨diffPercent, totalPercent⟩)
      else (⟨st.prevDownloaded, td⟩, none)

/-- Fold of the data handler over the received chunks, collecting the emitted
reports in order. -/
def dlProcessChunks (totalSize : Option Int) : DlState → List Int → List DlReport
  | _, [] => []
  | st, c :: cs =>
    match dlOnData totalSize st c with
    | (st2, some r) => r :: dlProcessChunks totalSize st2 cs
    | (st2, none) => dlProcessChunks totalSize st2 cs

/-- Final disposition of the `downloadFile` promise.  `cancelled` is the
outcome the spec requires for a signalled cancellation token; the source never
produces it. -/
inductive DlOutcome where
  | resolved
  | rejectedNon200
  | cancelled
deriving DecidableEq, Repr

/-- Observable run of `downloadFile`: the progress reports delivered to the
sink and the final disposition.  `resolved` stands for `resolve(fpath)` in the
`end` handler (source lines 78-81). -/
structure DlRun where
  reports : List DlReport
  outcome : DlOutcome
deriving DecidableEq, Repr

/-- Model of `downloadFile` (source lines 35-88) over its response inputs: the
status code, the raw `content-length` header (`none` when absent) and the
sizes of the delivered data chunks.  `res.headers['content-length'] || '0'`
turns an absent or empty header into the string "0"; `parseInt` of a malformed
header is NaN (the `try` around it never fires, since `parseInt` does not
throw).  At end-of-stream the promise is resolved with the temp-file path; no
report is sent to the progress sink there. -/
def downloadRun (statusCode : Int) (contentLength : Option String)
    (chunks : List Int) : DlRun :=
  if statusCode ≠ 200 then ⟨[], .rejectedNon200⟩
  else
    let hdr := match contentLength with
      | none => "0"
      | some s => if s = "" then "0" else s
    ⟨dlProcessChunks (parseIntJS hdr) ⟨0, 0⟩ chunks, .resolved⟩

/-- The source `downloadFile` signature is `(url, opt, pr)` (source line 35):
no cancellation token occurs in it, and no code in the function consults one,
so a cancellation signal cannot influence the run.  The `cancelSignaledAt`
argument exists solely to let the spec's cancellation claim be stated, and is
necessarily unread. -/
def downloadRunWithCancel (cancelSignaledAt : Option Nat) (statusCode : Int)
    (contentLength : Option String) (chunks : List Int) : DlRun :=
  downloadRun statusCode contentLength chunks

/-! ## Installer runner (`installLinux`, source lines 90-132) -/

/-- Observable tail of `installLinux` (source lines 114-131) once the elevated
installer process has exited: the error message shown (if any), the
`log.error` record of a generic non-zero exit (exit code and stderr, source
line 119), and the choices offered alongside the success message. -/
structure InstallResult where
  errorMessage : Option String
  loggedStderr : Option (Int × String)
  infoChoices : List String
deriving DecidableEq, Repr

/-- Exit-status branching of `installLinux` (source lines 114-131). -/
def installFinish (retc : Int) (stderr : String) : InstallResult :=
  if retc = 127 then
    ⟨some "Failed to authorize for running the CMake installation.", none, []⟩
  else if retc = 126 then
    ⟨some "You dismissed the request for permission to perform the CMake installation.",
     none, []⟩
  else if retc ≠ 0 then
    ⟨some "The CMake installer exited with non-zero. Check the output panel for more information",
     some (retc, stderr), []⟩
  else
    ⟨none, none, ["Restart Now"]⟩

/-! ## Upgrade workflow (`maybeUpgradeCMake`, source lines 134-205) -/

/-- Outcome of evaluating `versionLess(opt.currentVersion,
opt.available.version)` (source line 155): a Boolean, or a thrown
`InvalidVersionString`, or some other thrown exception.  The version model
lives outside this slice; only its observable outcome reaches this module. -/
inductive CompareOutcome where
  | ok (isLess : Bool)
  | throwInvalidVersionString
  | throwOther
deriving DecidableEq, Repr

/-- Choice offered by the upgrade prompt (source lines 167-178); `none` at the
use sites models a dismissed dialog. -/
inductive UserChoice where
  | doTheUpgrade
  | askMeLater
  | dontAskAgain
deriving DecidableEq, Repr

/-- Observable effects of one `maybeUpgradeCMake` invocation:
`comparedVersions` — `versionLess` was invoked (source line 155);
`rollbarReported` — `rollbar.exception` was invoked (source line 158);
`prompted` — the upgrade prompt was shown (source line 171);
`storeWrite` — the value written to the preference slot, if any
(source lines 184 and 188); `ranInstaller` — `installLinux` was invoked
(source line 197). -/
structure WorkflowResult where
  comparedVersions : Bool
  rollbarReported : Bool
  prompted : Bool
  storeWrite : Option JSVal
  ranInstaller : Bool

/-- An early `return` before the version check: nothing observable happened. -/
def earlyReturn : WorkflowResult := ⟨false, false, false, none, false⟩

/-- Model of `upgradePreference` (source lines 27-29): the raw persisted value
is returned with no shape validation whatsoever. -/
def upgradePreference (slot : Option JSVal) : Option JSVal := slot

/-- The deferral record `{lastNag: t}` as written by "Ask me Later" (source
line 188). -/
def delayVal (t : Int) : JSVal := .obj [("lastNag", .num t)]

/-- The strict-equality test `pref === 'never'` (source line 141): true only
for the exact string value. -/
def isNeverLiteral : JSVal → Bool
  | .str s => s == "never"
  | _ => false

/-- Tail of `maybeUpgradeCMake` from the version check onward (source lines
152-205).  `now2` is the second `new Date().getTime()` (source line 188).
On `InvalidVersionString` the catch block skips `rollbar.exception` (the guard
`!(e instanceof InvalidVersionString)` on source line 157) and returns; on any
other exception it reports and returns. -/
def checkUpgrade (platform : String) (now2 : Int) (cmp : CompareOutcome)
    (choice : Option UserChoice) : WorkflowResult :=
  match cmp with
  | .throwInvalidVersionString => ⟨true, false, false, none, false⟩
  | .throwOther => ⟨true, true, false, none, false⟩
  | .ok false => ⟨true, false, false, none, false⟩
  | .ok true =>
    match choice with
    | none => ⟨true, false, true, none, false⟩
    | some .dontAskAgain => ⟨true, false, true, some (.str "never"), false⟩
    | some .askMeLater => ⟨true, false, true, some (delayVal now2), false⟩
    | some .doTheUpgrade =>
      if platform = "linux" then ⟨true, false, true, none, true⟩
      else ⟨true, false, true, none, false⟩

/-- Model of `maybeUpgradeCMake` (source lines 134-205).  The preference gate:
`pref === 'never'` is strict string equality; any other truthy stored value
enters the deferral branch, where `new Date().getTime() - pref.lastNag` goes
through ECMAScript numeric coercion (NaN when `lastNag` is absent or
non-numeric) and a NaN `timeSinceNag` makes `timeSinceNag < 48h` false. -/
def maybeUpgradeCMake (platform : String) (stored : Option JSVal)
    (now now2 : Int) (cmp : CompareOutcome) (choice : Option UserChoice) :
    WorkflowResult :=
  if platform ≠ "linux" then earlyReturn
  else
    match upgradePreference stored with
    | none => checkUpgrade platform now2 cmp choice
    | some pref =>
      if isNeverLiteral pref then earlyReturn
      else if truthy pref then
        if jsLtNum (jsSub (some now) (jsToNumber (jsGetField pref "lastNag")))
            172800000 then earlyReturn
        else checkUpgrade platform now2 cmp choice
      else checkUpgrade platform now2 cmp choice

/-! ## Downloader lemmas -/

/-- With a NaN declared total no report is ever emitted. -/
theorem dlProcessChunks_nan (cs : List Int) :
    ∀ st : DlState, dlProcessChunks none st cs = [] := by
  induction cs with
  | nil => intro st; rfl
  | cons c cs ih => intro st; simpa [dlProcessChunks, dlOnData] using ih _

/-- With a zero declared total no report is ever emitted. -/
theorem dlProcessChunks_zero (cs : List Int) :
    ∀ st : DlState, dlProcessChunks (some 0) st cs = [] := by
  induction cs with
  | nil => intro st; rfl
  | cons c cs ih => intro st; simpa [dlProcessChunks, dlOnData] using ih _

/-- Any report emitted by a single data event has `increment` (the
`diffPercent` of source line 66) strictly greater than 1. -/
theorem dlOnData_report_increment (ts : Option Int) (st : DlState) (c : Int)
    (st2 : DlState) (r : DlReport) (h : dlOnData ts st c = (st2, some r)) :
    1 < r.increment := by
  unfold dlOnData at h
  cases ts with
  | none => simp at h
  | some t =>
    by_cases h0 : t = 0
    · simp [h0] at h
    · simp only [h0, if_false] at h
      split at h
      next hcond =>
        injection h with h1 h2
        injection h2 with h3
        subst h3
        exact hcond
      next => simp at h

/-- Every report collected over a run of chunks has `increment > 1`. -/
theorem dlProcessChunks_increment (ts : Option Int) (cs : List Int) :
    ∀ st : DlState, ∀ r ∈ dlProcessChunks ts st cs, 1 < r.increment := by
  induction cs with
  | nil => intro st r hr; simp [dlProcessChunks] at hr
  | cons c cs ih =>
    intro st r hr
    unfold dlProcessChunks at hr
    rcases hd : dlOnData ts st c with ⟨st2, orep⟩
    rw [hd] at hr
    cases orep with
    | some r0 =>
      simp only [List.mem_cons] at hr
      rcases hr with h | h
      · exact h ▸ dlOnData_report_increment ts st c st2 r0 hd
      · exact ih st2 r h
    | none => exact ih st2 r hr

/-! ## Downloader claims -/

/-- C3 counterexample: a 100-byte body delivered as chunks [99, 1] yields
exactly one progress report, at 99%: the second chunk's delta is exactly 1% of
the total (not strictly greater), so nothing more is reported, and the `end`
handler only resolves the promise — no final 100% progress notification is
ever emitted to the sink. -/
theorem C3_counterexample :
    (downloadRun 200 (some "100") [99, 1]).reports.map DlReport.totalPercent = [99] ∧
    ¬ (100 ∈ (downloadRun 200 (some "100") [99, 1]).reports.map DlReport.totalPercent) := by
  have h1 : parseIntJS (if ("100" : String) = "" then "0" else "100") = some 100 := rfl
  have h : (downloadRun 200 (some "100") [99, 1]).reports = [⟨99, 99⟩] := by
    simp only [downloadRun, dlProcessChunks, dlOnData, h1]
    norm_num
  rw [h]
  norm_num

/-- C3 (amended): a progress update is emitted to the sink only when the delta
since the last reported point exceeds 1% of the declared total — every emitted
report carries an increment strictly greater than 1 — and on a 200 response the
promise resolves exactly once at end-of-stream; no final 100% progress report
to the sink is guaranteed. -/
theorem C3_progress_policy (statusCode : Int) (hdr : Option String)
    (chunks : List Int) :
    (∀ r ∈ (downloadRun statusCode hdr chunks).reports, 1 < r.increment) ∧
    (downloadRun 200 hdr chunks).outcome = DlOutcome.resolved := by
  constructor
  · intro r hr
    unfold downloadRun at hr
    split at hr
    · simp at hr
    · exact dlProcessChunks_increment _ chunks _ r hr
  · unfold downloadRun
    rw [if_neg (by decide)]

/-- C3 witness: the report emitted for the concrete [99, 1] run has increment
above 1, and the run resolves. -/
theorem C3_progress_policy_witness :
    1 < (DlReport.mk 99 99).increment ∧
    (downloadRun 200 (some "100") [99, 1]).outcome = DlOutcome.resolved := by
  refine ⟨(C3_progress_policy 200 (some "100") [99, 1]).1 ⟨99, 99⟩ ?_,
          (C3_progress_policy 200 (some "100") [99, 1]).2⟩
  have h1 : parseIntJS (if ("100" : String) = "" then "0" else "100") = some 100 := rfl
  simp only [downloadRun, dlProcessChunks, dlOnData, h1]
  norm_num

/-- C5 counterexample: with the cancellation signal raised after the first
chunk, the run still resolves with the downloaded file — the transfer is not
aborted and the outcome is not Cancelled. -/
theorem C5_counterexample :
    (downloadRunWithCancel (some 1) 200 (some "100") [10, 10]).outcome
      = DlOutcome.resolved ∧
    (downloadRunWithCancel (some 1) 200 (some "100") [10, 10]).outcome
      ≠ DlOutcome.cancelled := by
  constructor
  · unfold downloadRunWithCancel downloadRun
    rw [if_neg (by decide)]
  · unfold downloadRunWithCancel downloadRun
    rw [if_neg (by decide)]
    simp

/-- C5 (amended): downloadFile has no cancellation support — its signature
accepts no cancellation token, a raised signal leaves the run unchanged, the
partial temp file is never deleted, and the outcome is never Cancelled. -/
theorem C5_no_cancellation (cancelAt : Option Nat) (statusCode : Int)
    (hdr : Option String) (chunks : List Int) :
    downloadRunWithCancel cancelAt statusCode hdr chunks
      = downloadRun statusCode hdr chunks ∧
    (downloadRunWithCancel cancelAt statusCode hdr chunks).outcome
      ≠ DlOutcome.cancelled := by
  refine ⟨rfl, ?_⟩
  unfold downloadRunWithCancel downloadRun
  split <;> simp

/-- C8: with an absent Content-Length header (coerced to "0" by `|| '0'`) or an
unparseable one (NaN total), the run emits no percentage reports and still
resolves at end-of-stream. -/
theorem C8_indeterminate_progress (chunks : List Int) (s : String)
    (hs : parseIntJS s = none) :
    (downloadRun 200 none chunks).reports = [] ∧
    (downloadRun 200 none chunks).outcome = DlOutcome.resolved ∧
    (downloadRun 200 (some s) chunks).reports = [] ∧
    (downloadRun 200 (some s) chunks).outcome = DlOutcome.resolved := by
  refine ⟨?_, ?_, ?_, ?_⟩
  · unfold downloadRun
    rw [if_neg (by decide)]
    show dlProcessChunks (parseIntJS "0") ⟨0, 0⟩ chunks = []
    rw [show parseIntJS "0" = some 0 from rfl]
    exact dlProcessChunks_zero chunks _
  · unfold downloadRun
    rw [if_neg (by decide)]
  · unfold downloadRun
    rw [if_neg (by decide)]
    by_cases he : s = ""
    · subst he
      show dlProcessChunks (parseIntJS (if ("" : String) = "" then "0" else "")) ⟨0, 0⟩ chunks = []
      rw [if_pos rfl, show parseIntJS "0" = some 0 from rfl]
      exact dlProcessChunks_zero chunks _
    · show dlProcessChunks (parseIntJS (if s = "" then "0" else s)) ⟨0, 0⟩ chunks = []
      rw [if_neg he, hs]
      exact dlProcessChunks_nan chunks _
  · unfold downloadRun
    rw [if_neg (by decide)]

/-- C8 witness: a malformed header "abc" with one 50-byte chunk produces no
reports and resolves. -/
theorem C8_indeterminate_progress_witness :
    (downloadRun 200 (some "abc") [50]).reports = [] ∧
    (downloadRun 200 (some "abc") [50]).outcome = DlOutcome.resolved :=
  ⟨(C8_indeterminate_progress [50] "abc" rfl).2.2.1,
   (C8_indeterminate_progress [50] "abc" rfl).2.2.2⟩

/-! ## Workflow lemmas -/

/-- Whenever the tail of the workflow runs, the version comparison has been
invoked. -/
theorem checkUpgrade_comparedVersions (platform : String) (now2 : Int)
    (cmp : CompareOutcome) (choice : Option UserChoice) :
    (checkUpgrade platform now2 cmp choice).comparedVersions = true := by
  unfold checkUpgrade
  rcases cmp with b | _ | _
  · cases b
    · rfl
    · rcases choice with _ | c
      · rfl
      · rcases c
        · show (if platform = "linux" then (⟨true, false, true, none, true⟩ : WorkflowResult)
                else ⟨true, false, true, none, false⟩).comparedVersions = true
          split <;> rfl
        · rfl
        · rfl
  · rfl
  · rfl

/-- The tail of the workflow writes the store only on an explicit
"Ask me Later" or "Don't Ask Me Again" choice. -/
theorem checkUpgrade_storeWrite (platform : String) (now2 : Int)
    (cmp : CompareOutcome) (choice : Option UserChoice) :
    (checkUpgrade platform now2 cmp choice).storeWrite = none ∨
    (choice = some .dontAskAgain ∧
      (checkUpgrade platform now2 cmp choice).storeWrite = some (.str "never")) ∨
    (choice = some .askMeLater ∧
      (checkUpgrade platform now2 cmp choice).storeWrite = some (delayVal now2)) := by
  unfold checkUpgrade
  rcases cmp with b | _ | _
  · cases b
    · exact Or.inl rfl
    · rcases choice with _ | c
      · exact Or.inl rfl
      · rcases c
        · refine Or.inl ?_
          show (if platform = "linux" then (⟨true, false, true, none, true⟩ : WorkflowResult)
                else ⟨true, false, true, none, false⟩).storeWrite = none
          split <;> rfl
        · exact Or.inr (Or.inr ⟨rfl, rfl⟩)
        · exact Or.inr (Or.inl ⟨rfl, rfl⟩)
  · exact Or.inl rfl
  · exact Or.inl rfl

/-- Unfolding of the workflow on an absent stored value. -/
theorem maybeUpgrade_none_unfold (platform : String) (now now2 : Int)
    (cmp : CompareOutcome) (choice : Option UserChoice) :
    maybeUpgradeCMake platform none now now2 cmp choice
      = if platform ≠ "linux" then earlyReturn
        else checkUpgrade platform now2 cmp choice := rfl

/-- Unfolding of the workflow on a present stored value. -/
theorem maybeUpgrade_some_unfold (platform : String) (pref : JSVal)
    (now now2 : Int) (cmp : CompareOutcome) (choice : Option UserChoice) :
    maybeUpgradeCMake platform (some pref) now now2 cmp choice
      = if platform ≠ "linux" then earlyReturn
        else if isNeverLiteral pref then earlyReturn
        else if truthy pref then
          if jsLtNum (jsSub (some now) (jsToNumber (jsGetField pref "lastNag")))
              172800000 then earlyReturn
          else checkUpgrade platform now2 cmp choice
        else checkUpgrade platform now2 cmp choice := rfl

/-- Every invocation either returns early with no observable effect or runs the
tail from the version check onward. -/
theorem maybeUpgrade_result_cases (platform : String) (stored : Option JSVal)
    (now now2 : Int) (cmp : CompareOutcome) (choice : Option UserChoice) :
    maybeUpgradeCMake platform stored now now2 cmp choice = earlyReturn ∨
    maybeUpgradeCMake platform stored now now2 cmp choice
      = checkUpgrade platform now2 cmp choice := by
  rcases stored with _ | pref
  · rw [maybeUpgrade_none_unfold]
    split
    · exact Or.inl rfl
    · exact Or.inr rfl
  · rw [maybeUpgrade_some_unfold]
    split
    · exact Or.inl rfl
    · split
      · exact Or.inl rfl
      · split
        · split
          · exact Or.inl rfl
          · exact Or.inr rfl
        · exact Or.inr rfl

/-- With no stored preference the workflow goes straight to the version
check. -/
theorem maybeUpgrade_none_eq (now now2 : Int) (cmp : CompareOutcome)
    (choice : Option UserChoice) :
    maybeUpgradeCMake "linux" none now now2 cmp choice
      = checkUpgrade "linux" now2 cmp choice := by
  unfold maybeUpgradeCMake upgradePreference
  rw [if_neg (by simp)]

/-- The deferral gate in closed form: with a stored `{lastNag: t}` record the
workflow returns early exactly when `now - t` is below the 48-hour window. -/
theorem maybeUpgrade_delay_eq (t now now2 : Int) (cmp : CompareOutcome)
    (choice : Option UserChoice) :
    maybeUpgradeCMake "linux" (some (delayVal t)) now now2 cmp choice
      = if now - t < 172800000 then earlyReturn
        else checkUpgrade "linux" now2 cmp choice := by
  have h1 : jsLtNum (jsSub (some now) (jsToNumber (jsGetField (delayVal t) "lastNag")))
      172800000 = decide (now - t < 172800000) := rfl
  simp only [maybeUpgradeCMake, upgradePreference, h1]
  norm_num [isNeverLiteral, truthy, delayVal]

/-! ## Workflow and installer claims -/

/-- C1: with a stored deferral record {lastNag: t}, maybeUpgradeCMake returns
before any version comparison or prompt exactly when now - t < 48 hours
(172800000 ms); at 48 hours or more it proceeds past the gate to the version
comparison. -/
theorem C1_deferral_gate (t now now2 : Int) (cmp : CompareOutcome)
    (choice : Option UserChoice) :
    (now - t < 172800000 →
      maybeUpgradeCMake "linux" (some (delayVal t)) now now2 cmp choice
        = earlyReturn) ∧
    (172800000 ≤ now - t →
      maybeUpgradeCMake "linux" (some (delayVal t)) now now2 cmp choice
        = checkUpgrade "linux" now2 cmp choice ∧
      (maybeUpgradeCMake "linux" (some (delayVal t)) now now2 cmp
          choice).comparedVersions = true) := by
  constructor
  · intro h
    rw [maybeUpgrade_delay_eq, if_pos h]
  · intro h
    rw [maybeUpgrade_delay_eq, if_neg (by omega)]
    exact ⟨rfl, checkUpgrade_comparedVersions _ _ _ _⟩

/-- C1 witness: at 47 hours the gate blocks; at 49 hours the version comparison
runs. -/
theorem C1_deferral_gate_witness :
    maybeUpgradeCMake "linux" (some (delayVal 0)) 169200000 0 (.ok true) none
      = earlyReturn ∧
    (maybeUpgradeCMake "linux" (some (delayVal 0)) 176400000 0 (.ok true)
        none).comparedVersions = true :=
  ⟨(C1_deferral_gate 0 169200000 0 (.ok true) none).1 (by decide),
   ((C1_deferral_gate 0 176400000 0 (.ok true) none).2 (by decide)).2⟩

/-- C2: installer exit code 127 produces the authorization-failure message,
126 the permission-dismissed message, any other non-zero exit the generic
message with (exit code, stderr) logged, and 0 no error message plus a
"Restart Now" offer; the four outcomes are pairwise distinct. -/
theorem C2_exit_code_mapping (stderr : String) (r : Int)
    (h127 : r ≠ 127) (h126 : r ≠ 126) (h0 : r ≠ 0) :
    installFinish 127 stderr
      = ⟨some "Failed to authorize for running the CMake installation.",
         none, []⟩ ∧
    installFinish 126 stderr
      = ⟨some "You dismissed the request for permission to perform the CMake installation.",
         none, []⟩ ∧
    installFinish r stderr
      = ⟨some "The CMake installer exited with non-zero. Check the output panel for more information",
         some (r, stderr), []⟩ ∧
    installFinish 0 stderr = ⟨none, none, ["Restart Now"]⟩ ∧
    installFinish 126 stderr ≠ installFinish 127 stderr ∧
    installFinish r stderr ≠ installFinish 127 stderr ∧
    installFinish r stderr ≠ installFinish 126 stderr ∧
    installFinish 0 stderr ≠ installFinish 127 stderr ∧
    installFinish 0 stderr ≠ installFinish 126 stderr ∧
    installFinish 0 stderr ≠ installFinish r stderr := by
  have e127 : installFinish 127 stderr
      = ⟨some "Failed to authorize for running the CMake installation.",
         none, []⟩ := by
    unfold installFinish; norm_num
  have e126 : installFinish 126 stderr
      = ⟨some "You dismissed the request for permission to perform the CMake installation.",
         none, []⟩ := by
    unfold installFinish; norm_num
  have er : installFinish r stderr
      = ⟨some "The CMake installer exited with non-zero. Check the output panel for more information",
         some (r, stderr), []⟩ := by
    unfold installFinish; rw [if_neg h127, if_neg h126, if_pos h0]
  have e0 : installFinish 0 stderr = ⟨none, none, ["Restart Now"]⟩ := by
    unfold installFinish; norm_num
  refine ⟨e127, e126, er, e0, ?_, ?_, ?_, ?_, ?_, ?_⟩
  · rw [e126, e127]; decide
  · rw [er, e127]; simp
  · rw [er, e126]; simp
  · rw [e0, e127]; simp
  · rw [e0, e126]; simp
  · rw [e0, er]; simp

/-- C2 witness: exit code 1 with stderr "boom" yields the generic logged
outcome; exit code 0 yields the restart offer. -/
theorem C2_exit_code_mapping_witness :
    installFinish 1 "boom"
      = ⟨some "The CMake installer exited with non-zero. Check the output panel for more information",
         some (1, "boom"), []⟩ ∧
    installFinish 0 "boom" = ⟨none, none, ["Restart Now"]⟩ :=
  ⟨(C2_exit_code_mapping "boom" 1 (by decide) (by decide) (by decide)).2.2.1,
   (C2_exit_code_mapping "boom" 1 (by decide) (by decide) (by decide)).2.2.2.1⟩

/-- C4 counterexample: when the version comparison throws
InvalidVersionString, rollbar.exception is NOT invoked — the source guard
`!(e instanceof InvalidVersionString)` skips exactly this case, so the claim
that the failure is reported to the telemetry/error sink is false. -/
theorem C4_counterexample :
    ¬ ((maybeUpgradeCMake "linux" none 0 0
          CompareOutcome.throwInvalidVersionString none).rollbarReported
        = true) := by
  rw [maybeUpgrade_none_eq]
  simp [checkUpgrade]

/-- C4 (amended): an InvalidVersionString thrown by the version comparison is
caught and the workflow terminates quietly — no prompt, no store write, no
installer run — and it is NOT reported to the telemetry sink (the source
reports only exceptions that are not InvalidVersionString). -/
theorem C4_invalid_version_quiet (platform : String) (stored : Option JSVal)
    (now now2 : Int) (choice : Option UserChoice) :
    (maybeUpgradeCMake platform stored now now2
        CompareOutcome.throwInvalidVersionString choice).prompted = false ∧
    (maybeUpgradeCMake platform stored now now2
        CompareOutcome.throwInvalidVersionString choice).rollbarReported = false ∧
    (maybeUpgradeCMake platform stored now now2
        CompareOutcome.throwInvalidVersionString choice).storeWrite = none ∧
    (maybeUpgradeCMake platform stored now now2
        CompareOutcome.throwInvalidVersionString choice).ranInstaller = false := by
  rcases maybeUpgrade_result_cases platform stored now now2
      CompareOutcome.throwInvalidVersionString choice with h | h <;>
    rw [h] <;> exact ⟨rfl, rfl, rfl, rfl⟩

/-- C6: the preference slot is written only by an explicit "Ask me Later"
(writing {lastNag: now}) or "Don't Ask Me Again" (writing "never"); on every
other path — including a dismissed dialog — the stored preference is left
unchanged.  (installLinux, which handles download and install failures,
contains no call to setUpgradePreference, so those paths also leave the slot
unchanged, as reflected by storeWrite = none on the proceed path.) -/
theorem C6_store_writes_only_on_choice (platform : String) (stored : Option JSVal)
    (now now2 : Int) (cmp : CompareOutcome) (choice : Option UserChoice) :
    ((maybeUpgradeCMake platform stored now now2 cmp choice).storeWrite = none ∨
     (choice = some .dontAskAgain ∧
       (maybeUpgradeCMake platform stored now now2 cmp choice).storeWrite
         = some (.str "never")) ∨
     (choice = some .askMeLater ∧
       (maybeUpgradeCMake platform stored now now2 cmp choice).storeWrite
         = some (delayVal now2))) ∧
    (maybeUpgradeCMake platform stored now now2 cmp none).storeWrite = none := by
  constructor
  · rcases maybeUpgrade_result_cases platform stored now now2 cmp choice with h | h
    · rw [h]; exact Or.inl rfl
    · rw [h]; exact checkUpgrade_storeWrite platform now2 cmp choice
  · rcases maybeUpgrade_result_cases platform stored now now2 cmp none with h | h
    · rw [h]; rfl
    · rw [h]
      rcases checkUpgrade_storeWrite platform now2 cmp none with h2 | ⟨h2, _⟩ | ⟨h2, _⟩
      · exact h2
      · cases h2
      · cases h2

/-- C7: once the stored preference is the string "never", every invocation
returns early — no version comparison, no prompt, no store write, no installer
— for every platform, time and dialog outcome, until the slot is changed
externally. -/
theorem C7_never_blocks_all_prompts (platform : String) (now now2 : Int)
    (cmp : CompareOutcome) (choice : Option UserChoice) :
    maybeUpgradeCMake platform (some (.str "never")) now now2 cmp choice
      = earlyReturn := by
  rw [maybeUpgrade_some_unfold]
  split
  · rfl
  · rw [if_pos (show isNeverLiteral (.str "never") = true from rfl)]

/-- C9 counterexample: the corrupt stored value {lastNag: "9999999999999999"}
(a string, not an epoch-millis integer) does NOT behave as if no preference
were recorded: string coercion turns it into a far-future deferral timestamp,
`now - t` is negative, and the gate suppresses the prompt — while with no
stored value the same invocation prompts. -/
theorem C9_counterexample :
    (maybeUpgradeCMake "linux"
        (some (.obj [("lastNag", .str "9999999999999999")]))
        1700000000000 0 (.ok true) (some .doTheUpgrade)).prompted = false ∧
    (maybeUpgradeCMake "linux" none 1700000000000 0 (.ok true)
        (some .doTheUpgrade)).prompted = true := by
  constructor
  · rw [maybeUpgrade_some_unfold]
    rw [if_neg (by simp)]
    rw [if_neg (by decide)]
    rw [if_pos (by decide)]
    rw [if_pos (by decide)]
    rfl
  · rw [maybeUpgrade_none_eq]
    rfl

/-- C9 (amended): upgradePreference performs no shape validation (it returns
the raw slot), and no corrupt value is fatal; a corrupt stored value that is
falsy, or whose lastNag member coerces to NaN, makes the workflow behave
exactly as if no preference were recorded — but a corrupt value whose lastNag
coerces to a number is instead treated as a deferral timestamp. -/
theorem C9_corrupt_value_as_unset (v : JSVal) (now now2 : Int)
    (cmp : CompareOutcome) (choice : Option UserChoice)
    (hnever : isNeverLiteral v = false)
    (h : truthy v = false ∨ jsToNumber (jsGetField v "lastNag") = none) :
    maybeUpgradeCMake "linux" (some v) now now2 cmp choice
      = maybeUpgradeCMake "linux" none now now2 cmp choice := by
  rw [maybeUpgrade_none_eq, maybeUpgrade_some_unfold]
  rw [if_neg (by simp)]
  rw [if_neg (by rw [hnever]; exact Bool.false_ne_true)]
  rcases h with h | h
  · rw [if_neg (by rw [h]; exact Bool.false_ne_true)]
  · rcases ht : truthy v with _ | _
    · rw [if_neg Bool.false_ne_true]
    · rw [if_pos rfl]
      rw [if_neg (by rw [h]; simp [jsSub, jsLtNum])]

/-- C9 witness: the corrupt object {} (truthy, lastNag undefined, hence NaN)
behaves exactly as an absent preference. -/
theorem C9_corrupt_value_as_unset_witness :
    maybeUpgradeCMake "linux" (some (.obj [])) 5 7 (.ok true) none
      = maybeUpgradeCMake "linux" none 5 7 (.ok true) none :=
  C9_corrupt_value_as_unset (.obj []) 5 7 (.ok true) none rfl (Or.inr rfl)

/-- C10: a deferral record whose lastNag lies strictly in the future makes the
computed elapsed time negative, hence below the 48-hour window, so the
workflow returns early without prompting — for every such now, until the
record is overwritten. -/
theorem C10_future_timestamp_blocks (t now now2 : Int) (cmp : CompareOutcome)
    (choice : Option UserChoice) (h : now < t) :
    maybeUpgradeCMake "linux" (some (delayVal t)) now now2 cmp choice
      = earlyReturn := by
  rw [maybeUpgrade_delay_eq, if_pos (by omega)]

/-- C10 witness: lastNag 10 with now 3 blocks the workflow. -/
theorem C10_future_timestamp_blocks_witness :
    maybeUpgradeCMake "linux" (some (delayVal 10)) 3 0 (.ok true) none
      = earlyReturn :=
  C10_future_timestamp_blocks 10 3 0 (.ok true) none (by decide)
